import Mathlib

/-!
# Verification of the hketa transit-normalization layer

Shallow embedding of `paper_eta/src/libs/hketa` (models.py, enums.py, route.py,
transport.py, eta_processor.py) and proofs about it.

Conventions of the embedding:
* Python machine timestamps are modelled as `Int` seconds since an epoch;
  differences of two timestamps of the same response therefore agree with
  `(a - b).total_seconds()` of the source (the timezone attached to both
  operands of a difference cancels).
* Python functions that can raise are modelled with `Except PyErr`; a Python
  function that can fall off its end (returning `None`) additionally wraps its
  result in `Option`.
* `dict` values keyed by strings are modelled as insertion-ordered association
  lists; updating an existing key keeps its original position and replaces the
  value, exactly as CPython dictionaries do.
-/

namespace Hketa

/-- Model of `enums.Locale` (enums.py): locale codes `tc` / `en`. -/
inductive Locale where
  | tc
  | en
deriving DecidableEq, Repr

/-- Model of `enums.Company` (enums.py). -/
inductive Company where
  | kmb
  | mtrbus
  | mtrlrt
  | mtrtrain
  | ctb
  | nlb
deriving DecidableEq, Repr

/-- Model of `enums.Direction` (enums.py): `outbound` / `inbound`. -/
inductive Direction where
  | outbound
  | inbound
deriving DecidableEq, Repr

/-- The `.value` of the `Direction` str-enum. -/
def Direction.value : Direction → String
  | .outbound => "outbound"
  | .inbound => "inbound"

/-- Model of `self.entry.direction[0].upper()` (eta_processor.py line 100): first letter
of the direction string, uppercased. -/
def Direction.firstLetterUpper : Direction → String
  | .outbound => "O"
  | .inbound => "I"

/-- Model of `enums.StopType` (enums.py). -/
inductive StopType where
  | orig
  | stop
  | dest
deriving DecidableEq, Repr

/-- A bilingual name mapping, modelling the `dict[Locale, str]` name maps of
`RouteInfo.Stop` (models.py line 44); both locale keys are always present in
the source's constructions, so a total structure is the faithful model. -/
structure BiName where
  tc : String
  en : String
deriving DecidableEq, Repr

/-- Subscript / `.get` with a `Locale` key on a name map. -/
def BiName.get (n : BiName) : Locale → String
  | .tc => n.tc
  | .en => n.en

/-- The payload of one resolved stop, as every provider's `_fetch_stop_list`
builds it: `RouteInfo.Stop(id=..., seq=..., name=...)` (transport.py). -/
structure StopData where
  id : String
  seq : Nat
  name : BiName
deriving DecidableEq, Repr

/-- A value stored in a Python stop dict (`RouteInfo.Stop` is a `TypedDict`,
i.e. a plain `dict` at runtime). -/
inductive StopVal where
  | str (s : String)
  | num (n : Nat)
  | name (m : BiName)
deriving DecidableEq, Repr

/-- A runtime `RouteInfo.Stop`: a plain string-keyed Python dict. -/
def PyStop := List (String × StopVal)

instance : DecidableEq PyStop := by
  unfold PyStop
  infer_instance

/-- Dict lookup returning `none` on a missing key (a subscript on a missing
key is a Python `KeyError`). -/
def pyGet (d : PyStop) (k : String) : Option StopVal :=
  (d.find? (fun p => p.1 = k)).map (fun p => p.2)

/-- Model of `RouteInfo.Stop(id=..., seq=..., name=...)`: the dict every provider's
stop-list code constructs (keys `id`, `seq`, `name`). -/
def StopData.toDict (s : StopData) : PyStop :=
  [("id", .str s.id), ("seq", .num s.seq), ("name", .name s.name)]

/-- The synthetic circular-route destination of `Route.destination`
(route.py lines 92-97): `RouteInfo.Stop(stop_id=stop["id"], seq=stop["seq"],
name={EN: "TSW Circular", TC: "天水圍循環綫"})`.  Note the keyword is
`stop_id`, so the resulting dict has key `stop_id`, not `id` (a `TypedDict`
constructor performs no key validation at runtime). -/
def mkCircularStop (id : String) (seq : Nat) : PyStop :=
  [("stop_id", .str id), ("seq", .num seq),
   ("name", .name ⟨"天水圍循環綫", "TSW Circular"⟩)]

/-- Model of `models.RouteQuery` (models.py lines 14-23). -/
structure RouteQuery where
  transport : Company
  no : String
  direction : Direction
  stop_id : String
  service_type : String
  locale : Locale
deriving DecidableEq, Repr

/-- Exceptions of `hketa.exceptions` plus the builtin Python errors the
embedded code can raise. -/
inductive PyErr where
  | routeNotExist (no : String)
  | stopNotExist (id : String)
  | serviceTypeNotExist (st : String)
  | keyError (k : String)
  | indexError
deriving DecidableEq, Repr

/-- The catalog data of one provider, as visible to `Route`:
`route_list().keys()` and the resolved `stop_list` of each
(route, direction, service_type) key.  This abstracts the on-disk cache of
transport.py (modelled separately for the staleness claims): a `Transport`
whose cache reads succeed behaves as such a table. -/
structure TransportData where
  company : Company
  routes : List String
  stops : String → Direction → String → List StopData

/-- Model of `Transport.stop_list` (transport.py lines 129-155): raises `RouteNotExist`
when the route number is not a key of the route list, otherwise yields the
resolved stop tuple. -/
def TransportData.stop_list (t : TransportData) (route_no : String)
    (direction : Direction) (service_type : String) :
    Except PyErr (List StopData) :=
  if t.routes.contains route_no then
    .ok (t.stops route_no direction service_type)
  else
    .error (.routeNotExist route_no)

/-- Insertion into a CPython dict: an existing key keeps its position and has
its value replaced; a new key is appended. -/
def dictInsert (d : List (String × StopData)) (k : String) (v : StopData) :
    List (String × StopData) :=
  if d.any (fun p => p.1 = k) then
    d.map (fun p => if p.1 = k then (k, v) else p)
  else
    d ++ [(k, v)]

/-- The dict comprehension `{stop["id"]: stop for stop in stop_list}` of
`Route.__init__` (route.py lines 49-52); every stop produced by a provider is
a `RouteInfo.Stop(id=..., seq=..., name=...)` dict, whose `stop["id"]` is the
`id` field. -/
def buildStopDict (stops : List StopData) : List (String × StopData) :=
  stops.foldl (fun d s => dictInsert d s.id s) []

/-- Membership test of a key in a dict (`k in d.keys()`). -/
def dictHasKey (d : List (String × StopData)) (k : String) : Bool :=
  (d.map Prod.fst).any (fun x => x = k)

/-- Lookup in the stop dict (`self._stop_list[k]`; `none` means `KeyError`). -/
def dictLookup (d : List (String × StopData)) (k : String) : Option StopData :=
  (d.find? (fun p => p.1 = k)).map (fun p => p.2)

/-- Model of `route.Route`: the fields an initialized instance holds (`entry`, the
provider — of which only the company identity is read — and `_stop_list`). -/
structure Route where
  entry : RouteQuery
  providerCompany : Company
  stop_dict : List (String × StopData)
deriving Repr

/-- Model of `Route.__init__` (route.py lines 46-55): resolve the stop list (which can
raise `RouteNotExist`), key it by stop id, and raise `StopNotExist` when the
queried `stop_id` is not among the keys. -/
def Route.init (entry : RouteQuery) (t : TransportData) : Except PyErr Route :=
  match t.stop_list entry.no entry.direction entry.service_type with
  | .error e => .error e
  | .ok stops =>
    let d := buildStopDict stops
    if dictHasKey d entry.stop_id then
      .ok ⟨entry, t.company, d⟩
    else
      .error (.stopNotExist entry.stop_id)

/-- Model of `list(self._stop_list.values())`. -/
def Route.values (r : Route) : List StopData :=
  r.stop_dict.map (fun p => p.2)

/-- Model of `Route.origin` (route.py lines 83-84): `list(values())[0]`;
`none` models the `IndexError` of indexing an empty list. -/
def Route.origin (r : Route) : Option StopData :=
  r.values.head?

/-- Model of `Route.destination` (route.py lines 86-99): the last dict value, replaced
by the synthetic circular stop for light-rail routes 705/706. -/
def Route.destination (r : Route) : Option PyStop :=
  (r.values.getLast?).map (fun stop =>
    if r.entry.transport = Company.mtrlrt ∧ (r.entry.no = "705" ∨ r.entry.no = "706") then
      mkCircularStop stop.id stop.seq
    else
      stop.toDict)

/-- Model of `stop["name"]` on a runtime stop dict, expecting a name map. -/
def PyStop.nameMap (d : PyStop) : Option BiName :=
  match pyGet d "name" with
  | some (.name m) => some m
  | _ => none

/-- Model of `stop["id"]` on a runtime stop dict, expecting a string. -/
def PyStop.idStr (d : PyStop) : Option String :=
  match pyGet d "id" with
  | some (.str s) => some s
  | _ => none

/-- Model of `Route.dest_name` (route.py lines 116-117):
`self.destination()["name"][self.entry.locale]`. -/
def Route.dest_name (r : Route) : Except PyErr String :=
  match r.destination with
  | none => .error .indexError
  | some d =>
    match d.nameMap with
    | none => .error (.keyError "name")
    | some m => .ok (m.get r.entry.locale)

/-- Model of `Route.orig_name` (route.py lines 113-114):
`self.origin()["name"][self.entry.locale]`. -/
def Route.orig_name (r : Route) : Except PyErr String :=
  match r.origin with
  | none => .error .indexError
  | some o => .ok (o.name.get r.entry.locale)

/-- Model of `Route.stop_name` (route.py lines 109-111):
`self._stop_list[self.entry.stop_id]["name"][self.entry.locale]`. -/
def Route.stop_name (r : Route) : Except PyErr String :=
  match dictLookup r.stop_dict r.entry.stop_id with
  | none => .error (.keyError r.entry.stop_id)
  | some s => .ok (s.name.get r.entry.locale)

/-- Model of `Route.stop_seq` (route.py lines 76-78):
`int(self._stop_list[self.entry.stop_id]["seq"])`. -/
def Route.stop_seq (r : Route) : Except PyErr Nat :=
  match dictLookup r.stop_dict r.entry.stop_id with
  | none => .error (.keyError r.entry.stop_id)
  | some s => .ok s.seq

/-- Model of `Route.stop_type` (route.py lines 101-107): compare the queried stop id
against `origin()["id"]`, then against `destination()["id"]` — the latter
subscript raises `KeyError` on the synthetic circular destination. -/
def Route.stop_type (r : Route) : Except PyErr StopType :=
  match r.origin with
  | none => .error .indexError
  | some o =>
    if o.id = r.entry.stop_id then .ok .orig
    else
      match r.destination with
      | none => .error .indexError
      | some d =>
        match d.idStr with
        | none => .error (.keyError "id")
        | some did =>
          if did = r.entry.stop_id then .ok .dest else .ok .stop

/-- Model of `MTR_TRAIN_NAMES` (route.py lines 15-28): manual bilingual line names,
keyed by line code. -/
def mtrTrainNames (k : String) : Option BiName :=
  if k = "AEL" then some ⟨"機場快線", "Airport Express Line"⟩
  else if k = "TCL" then some ⟨"東涌線", "Tung Chung Line"⟩
  else if k = "TML" then some ⟨"屯馬線", "Tuen Ma Line"⟩
  else if k = "TKL" then some ⟨"將軍澳線", "Tseung Kwan O Line"⟩
  else if k = "TKL-TKS" then some ⟨"將軍澳線", "Tseung Kwan O Line"⟩
  else if k = "EAL" then some ⟨"東鐵線", "East Rail Line"⟩
  else if k = "EAL-LMC" then some ⟨"東鐵線", "East Rail Line"⟩
  else if k = "DRL" then some ⟨"迪士尼線", "Disneyland Resort Line"⟩
  else if k = "KTL" then some ⟨"觀塘線", "Kwun Tong Line"⟩
  else if k = "TWL" then some ⟨"荃灣線", "Tsuen Wan Line"⟩
  else if k = "ISL" then some ⟨"港島線", "Island Line"⟩
  else if k = "SIL" then some ⟨"南港島線", "South Island Line"⟩
  else none

/-- Result of `Route.name`: `MTR_TRAIN_NAMES.get(key, key)` would yield a
bilingual dict, the fallbacks a plain string. -/
inductive NameResult where
  | str (s : String)
  | localeMap (m : BiName)
deriving DecidableEq, Repr

/-- The guard `isinstance(self.provider, type(MTRTrain))` of `Route.name`
(route.py line 66).  `type(MTRTrain)` evaluates to `ABCMeta`, the metaclass of
the `Transport` hierarchy; `isinstance(x, ABCMeta)` asks whether `type(x)` is
a subclass of `ABCMeta`, which holds for no provider *instance* (only for the
provider classes themselves).  The guard is therefore `False` for every
provider, including `MTRTrain`. -/
def isinstanceProviderTypeMtrTrain (_c : Company) : Bool := false

/-- Model of `Route.name` (route.py lines 64-68). -/
def Route.name (r : Route) : NameResult :=
  if isinstanceProviderTypeMtrTrain r.providerCompany then
    match mtrTrainNames r.entry.stop_id with
    | some m => .localeMap m
    | none => .str r.entry.stop_id
  else
    .str r.entry.no

/-- The synthetic bilingual circular label of route.py lines 94-97, selected
at a locale. -/
def tswCircularLabel : Locale → String
  | .tc => "天水圍循環綫"
  | .en => "TSW Circular"

section DictLemmas

theorem keys_dictInsert (d : List (String × StopData)) (k' : String)
    (v : StopData) :
    (dictInsert d k' v).map Prod.fst
      = if d.any (fun p => p.1 = k') then d.map Prod.fst
        else d.map Prod.fst ++ [k'] := by
  unfold dictInsert
  split
  · next h =>
    rw [List.map_map]
    congr 1
    funext p
    by_cases hp : p.1 = k' <;> simp [hp]
  · next h =>
    simp

theorem dictHasKey_insert (d : List (String × StopData)) (k k' : String)
    (v : StopData) :
    dictHasKey (dictInsert d k' v) k = (dictHasKey d k || decide (k' = k)) := by
  unfold dictHasKey
  rw [keys_dictInsert]
  split
  · next h =>
    by_cases hk : k' = k
    · subst hk
      have hmem : (d.map Prod.fst).any (fun x => x = k') = true := by
        rcases List.any_eq_true.mp h with ⟨p, hp, hpk⟩
        exact List.any_eq_true.mpr ⟨p.1, List.mem_map_of_mem _ hp, hpk⟩
      simp [hmem]
    · simp [hk]
  · simp [List.any_append]

theorem dictHasKey_buildStopDict (stops : List StopData) (k : String) :
    dictHasKey (buildStopDict stops) k = stops.any (fun s => s.id = k) := by
  unfold buildStopDict
  suffices h : ∀ (d : List (String × StopData)),
      dictHasKey (stops.foldl (fun d s => dictInsert d s.id s) d) k
        = (dictHasKey d k || stops.any (fun s => s.id = k)) by
    have := h []
    simpa [dictHasKey] using this
  induction stops with
  | nil => intro d; simp
  | cons s stops ih =>
    intro d
    simp only [List.foldl_cons, List.any_cons]
    rw [ih, dictHasKey_insert]
    by_cases h1 : dictHasKey d k <;> by_cases h2 : s.id = k <;> simp [h1, h2]

end DictLemmas

/-- C3: when the route number is in the provider's route list and the stop
list resolves non-empty, constructing a `Route` succeeds exactly when the
queried stop id occurs among the resolved stops' ids and raises
`StopNotExist` exactly when it does not; a route number absent from the
route list raises `RouteNotExist` (before stop resolution, whatever the stop
data would have been). -/
theorem route_init_stop_resolution (entry : RouteQuery) (t : TransportData) :
    (t.routes.contains entry.no = true →
      t.stops entry.no entry.direction entry.service_type ≠ [] →
      ((∃ s ∈ t.stops entry.no entry.direction entry.service_type,
          s.id = entry.stop_id) →
        ∃ r : Route, Route.init entry t = .ok r ∧ r.entry = entry) ∧
      ((∀ s ∈ t.stops entry.no entry.direction entry.service_type,
          s.id ≠ entry.stop_id) →
        Route.init entry t = .error (.stopNotExist entry.stop_id))) ∧
    (t.routes.contains entry.no = false →
      Route.init entry t = .error (.routeNotExist entry.no)) := by
  constructor
  · intro hroute _hne
    constructor
    · intro hex
      unfold Route.init TransportData.stop_list
      rw [if_pos hroute]
      simp only
      rw [if_pos]
      · exact ⟨_, rfl, rfl⟩
      · rw [dictHasKey_buildStopDict]
        rcases hex with ⟨s, hs, hid⟩
        exact List.any_eq_true.mpr ⟨s, hs, by simp [hid]⟩
    · intro hall
      unfold Route.init TransportData.stop_list
      rw [if_pos hroute]
      simp only
      rw [if_neg]
      rw [dictHasKey_buildStopDict]
      intro hc
      rcases List.any_eq_true.mp hc with ⟨s, hs, hid⟩
      exact hall s hs (by simpa using hid)
  · intro hroute
    unfold Route.init TransportData.stop_list
    rw [if_neg (by rw [hroute]; exact Bool.false_ne_true)]

/-- Witness for C3 at a concrete catalog: a present stop id constructs, an
absent route number raises `RouteNotExist`. -/
theorem route_init_stop_resolution_witness :
    (∃ r : Route,
      Route.init
        ⟨Company.kmb, "1", Direction.outbound, "S2", "1", Locale.en⟩
        ⟨Company.kmb, ["1"], fun _ _ _ => [⟨"S1", 1, ⟨"甲", "A"⟩⟩, ⟨"S2", 2, ⟨"乙", "B"⟩⟩]⟩
        = .ok r ∧ r.entry = ⟨Company.kmb, "1", Direction.outbound, "S2", "1", Locale.en⟩) ∧
    (Route.init
        ⟨Company.kmb, "99", Direction.outbound, "S2", "1", Locale.en⟩
        ⟨Company.kmb, ["1"], fun _ _ _ => [⟨"S1", 1, ⟨"甲", "A"⟩⟩, ⟨"S2", 2, ⟨"乙", "B"⟩⟩]⟩
      = .error (.routeNotExist "99")) := by
  constructor
  · exact ((route_init_stop_resolution
      ⟨Company.kmb, "1", Direction.outbound, "S2", "1", Locale.en⟩
      ⟨Company.kmb, ["1"], fun _ _ _ => [⟨"S1", 1, ⟨"甲", "A"⟩⟩, ⟨"S2", 2, ⟨"乙", "B"⟩⟩]⟩).1
      (by decide) (by decide)).1 ⟨⟨"S2", 2, ⟨"乙", "B"⟩⟩, by decide, rfl⟩
  · exact (route_init_stop_resolution
      ⟨Company.kmb, "99", Direction.outbound, "S2", "1", Locale.en⟩
      ⟨Company.kmb, ["1"], fun _ _ _ => [⟨"S1", 1, ⟨"甲", "A"⟩⟩, ⟨"S2", 2, ⟨"乙", "B"⟩⟩]⟩).2
      (by decide)

section RouteLemmas

theorem route_init_ok (entry : RouteQuery) (t : TransportData) (r : Route)
    (h : Route.init entry t = .ok r) :
    r.entry = entry ∧ r.providerCompany = t.company ∧
    r.stop_dict = buildStopDict (t.stops entry.no entry.direction entry.service_type) ∧
    (t.stops entry.no entry.direction entry.service_type).any
      (fun s => s.id = entry.stop_id) = true := by
  unfold Route.init TransportData.stop_list at h
  by_cases hc : t.routes.contains entry.no = true
  · rw [if_pos hc] at h
    simp only at h
    by_cases hk : dictHasKey
        (buildStopDict (t.stops entry.no entry.direction entry.service_type))
        entry.stop_id = true
    · rw [if_pos hk] at h
      cases h
      refine ⟨rfl, rfl, rfl, ?_⟩
      rw [← dictHasKey_buildStopDict]
      exact hk
    · rw [if_neg hk] at h
      exact absurd h (by simp)
  · rw [if_neg hc] at h
    exact absurd h (by simp)

theorem buildStopDict_of_nodup (stops : List StopData)
    (h : (stops.map StopData.id).Nodup) :
    buildStopDict stops = stops.map (fun s => (s.id, s)) := by
  unfold buildStopDict
  suffices haux : ∀ acc : List (String × StopData),
      (∀ s ∈ stops, dictHasKey acc s.id = false) →
      stops.foldl (fun d s => dictInsert d s.id s) acc
        = acc ++ stops.map (fun s => (s.id, s)) by
    simpa using haux [] (by intro s _; rfl)
  induction stops with
  | nil => intro acc _; simp
  | cons s stops ih =>
    intro acc hacc
    simp only [List.map_cons, List.nodup_cons] at h
    simp only [List.foldl_cons]
    have hins : dictInsert acc s.id s = acc ++ [(s.id, s)] := by
      unfold dictInsert
      rw [if_neg]
      intro hc
      rcases List.any_eq_true.mp hc with ⟨p, hp, hpk⟩
      have hkey : dictHasKey acc s.id = true :=
        List.any_eq_true.mpr ⟨p.1, List.mem_map_of_mem _ hp, hpk⟩
      have := hacc s (by simp)
      rw [this] at hkey
      exact absurd hkey (by simp)
    rw [hins, ih h.2]
    · simp
    · intro s' hs'
      unfold dictHasKey
      simp only [List.map_append, List.any_append, List.map_cons, List.map_nil,
        List.any_cons, List.any_nil]
      have h1 := hacc s' (by simp [hs'])
      unfold dictHasKey at h1
      rw [h1]
      have hne : ¬(s.id = s'.id) := by
        intro hx
        exact h.1 (hx ▸ List.mem_map_of_mem _ hs')
      simp [hne]

theorem values_of_nodup (stops : List StopData)
    (h : (stops.map StopData.id).Nodup) :
    (buildStopDict stops).map Prod.snd = stops := by
  rw [buildStopDict_of_nodup stops h, List.map_map]
  have hc : (Prod.snd ∘ fun s : StopData => (s.id, s)) = id := by
    funext s
    rfl
  rw [hc, List.map_id]

theorem stops_ne_nil_of_any (stops : List StopData) (k : String)
    (h : stops.any (fun s => s.id = k) = true) : stops ≠ [] := by
  intro hc
  subst hc
  simp at h

/-- The dict values of a constructed route are nonempty. -/
theorem route_values_ne_nil (entry : RouteQuery) (t : TransportData) (r : Route)
    (h : Route.init entry t = .ok r) : r.values ≠ [] := by
  obtain ⟨_, _, hdict, hany⟩ := route_init_ok entry t r h
  have hne := stops_ne_nil_of_any _ _ hany
  intro hc
  unfold Route.values at hc
  rw [hdict] at hc
  have : buildStopDict (t.stops entry.no entry.direction entry.service_type) = [] :=
    List.map_eq_nil_iff.mp hc
  cases hstops : t.stops entry.no entry.direction entry.service_type with
  | nil => exact hne hstops
  | cons s rest =>
    rw [hstops] at this
    unfold buildStopDict at this
    simp only [List.foldl_cons] at this
    have hgrow : ∀ (l : List StopData) (acc : List (String × StopData)),
        acc ≠ [] → l.foldl (fun d s => dictInsert d s.id s) acc ≠ [] := by
      intro l
      induction l with
      | nil => intro acc hacc; simpa using hacc
      | cons x xs ihx =>
        intro acc hacc
        simp only [List.foldl_cons]
        apply ihx
        unfold dictInsert
        split
        · next hcond =>
          intro hm
          rw [List.map_eq_nil_iff] at hm
          rw [hm] at hacc
          exact hacc rfl
        · intro hm
          rcases List.append_eq_nil.mp hm with ⟨_, h2⟩
          simp at h2
    exact hgrow rest (dictInsert [] s.id s) (by unfold dictInsert; simp) this

theorem nameMap_toDict (s : StopData) : (s.toDict).nameMap = some s.name := rfl

theorem idStr_toDict (s : StopData) : (s.toDict).idStr = some s.id := rfl

theorem nameMap_circular (i : String) (q : Nat) :
    (mkCircularStop i q).nameMap = some ⟨"天水圍循環綫", "TSW Circular"⟩ := rfl

theorem idStr_circular (i : String) (q : Nat) :
    (mkCircularStop i q).idStr = none := rfl

end RouteLemmas

/-- C9: `Route.name` never takes the rail branch — the `isinstance` guard is
constantly false — so it returns the query's route number for every provider,
and in particular returns `"EAL"` (not the synthesized `"East Rail Line"`
recorded in `MTR_TRAIN_NAMES`) for a heavy-rail route over the EAL line. -/
theorem route_name_is_route_no :
    (∀ r : Route, r.name = .str r.entry.no) ∧
    (Route.name
      ⟨⟨Company.mtrtrain, "EAL", Direction.inbound, "ADM", "default", Locale.en⟩,
        Company.mtrtrain,
        buildStopDict [⟨"ADM", 1, ⟨"金鐘", "Admiralty"⟩⟩, ⟨"EXC", 2, ⟨"會展", "Exhibition Centre"⟩⟩]⟩
      = .str "EAL") ∧
    ((mtrTrainNames "EAL").map (fun m => m.get Locale.en) = some "East Rail Line") := by
  refine ⟨?_, rfl, rfl⟩
  intro r
  rfl

/-- C7: destination display name.  For light-rail routes 705/706 `dest_name`
is the synthetic bilingual circular label; for any other route whose resolved
stop list satisfies the catalog invariant (stops seq-ordered, ids unique),
`dest_name` is the name of the stop with the highest sequence number. -/
theorem dest_name_circular_or_highest_seq (entry : RouteQuery)
    (t : TransportData) (r : Route)
    (hinit : Route.init entry t = .ok r)
    (hnodup : ((t.stops entry.no entry.direction entry.service_type).map
        StopData.id).Nodup)
    (hsorted : (t.stops entry.no entry.direction entry.service_type).Pairwise
        (fun a b => a.seq < b.seq)) :
    ((entry.transport = Company.mtrlrt ∧ (entry.no = "705" ∨ entry.no = "706")) →
      r.dest_name = .ok (tswCircularLabel entry.locale)) ∧
    (¬(entry.transport = Company.mtrlrt ∧ (entry.no = "705" ∨ entry.no = "706")) →
      ∃ s ∈ t.stops entry.no entry.direction entry.service_type,
        (∀ s' ∈ t.stops entry.no entry.direction entry.service_type,
            s'.seq ≤ s.seq) ∧
        r.dest_name = .ok (s.name.get entry.locale)) := by
  obtain ⟨hentry, _, hdict, hany⟩ := route_init_ok entry t r hinit
  set stops := t.stops entry.no entry.direction entry.service_type with hstops
  have hvals : r.values = stops := by
    unfold Route.values
    rw [hdict]
    exact values_of_nodup stops hnodup
  have hne : stops ≠ [] := stops_ne_nil_of_any _ _ hany
  have hlast : r.values.getLast? = some (stops.getLast hne) := by
    rw [hvals]
    exact List.getLast?_eq_getLast stops hne
  have hlast_mem : stops.getLast hne ∈ stops := List.getLast_mem hne
  have hmax : ∀ s' ∈ stops, s'.seq ≤ (stops.getLast hne).seq := by
    intro s' hs'
    have hdecomp : stops.dropLast ++ [stops.getLast hne] = stops :=
      List.dropLast_append_getLast hne
    rw [← hdecomp] at hsorted hs'
    rcases List.mem_append.mp hs' with hmem | hmem
    · have := (List.pairwise_append.mp hsorted).2.2 s' hmem
        (stops.getLast hne) (by simp)
      exact le_of_lt this
    · simp only [List.mem_singleton] at hmem
      subst hmem
      exact le_refl _
  constructor
  · intro hcirc
    have hcond : r.entry.transport = Company.mtrlrt ∧
        (r.entry.no = "705" ∨ r.entry.no = "706") := by
      rw [hentry]; exact hcirc
    unfold Route.dest_name Route.destination
    rw [hlast]
    dsimp only [Option.map_some']
    rw [if_pos hcond, nameMap_circular]
    rw [hentry]
    cases entry.locale <;> rfl
  · intro hncirc
    have hcond : ¬(r.entry.transport = Company.mtrlrt ∧
        (r.entry.no = "705" ∨ r.entry.no = "706")) := by
      rw [hentry]; exact hncirc
    refine ⟨stops.getLast hne, hlast_mem, hmax, ?_⟩
    unfold Route.dest_name Route.destination
    rw [hlast]
    dsimp only [Option.map_some']
    rw [if_neg hcond, nameMap_toDict, hentry]

/-- Witness for C7: a concrete light-rail 705 route yields the circular label,
and a concrete bus route yields its highest-sequence stop's name. -/
theorem dest_name_circular_or_highest_seq_witness :
    (∃ r : Route,
      Route.init ⟨Company.mtrlrt, "705", Direction.outbound, "A", "default", Locale.en⟩
        ⟨Company.mtrlrt, ["705"],
          fun _ _ _ => [⟨"A", 1, ⟨"甲", "StopA"⟩⟩, ⟨"B", 2, ⟨"乙", "StopB"⟩⟩]⟩ = .ok r ∧
      r.dest_name = .ok "TSW Circular") := by
  have hinit : Route.init
      ⟨Company.mtrlrt, "705", Direction.outbound, "A", "default", Locale.en⟩
      ⟨Company.mtrlrt, ["705"],
        fun _ _ _ => [⟨"A", 1, ⟨"甲", "StopA"⟩⟩, ⟨"B", 2, ⟨"乙", "StopB"⟩⟩]⟩
      = .ok ⟨⟨Company.mtrlrt, "705", Direction.outbound, "A", "default", Locale.en⟩,
          Company.mtrlrt,
          buildStopDict [⟨"A", 1, ⟨"甲", "StopA"⟩⟩, ⟨"B", 2, ⟨"乙", "StopB"⟩⟩]⟩ := rfl
  refine ⟨_, hinit, ?_⟩
  have := (dest_name_circular_or_highest_seq _ _ _ hinit
    (by simp) (by simp)).1 ⟨rfl, Or.inl rfl⟩
  simpa using this

/-- C10 counterexample: for light-rail route 705 queried at its *origin* stop,
`stop_type` does return a `StopType` (namely `orig`) — the origin comparison
precedes the read of `destination()["id"]` — so the claim's "for any queried
stop" fails. -/
theorem stop_type_circular_origin_ok :
    (∃ r : Route,
      Route.init ⟨Company.mtrlrt, "705", Direction.outbound, "A", "default", Locale.en⟩
        ⟨Company.mtrlrt, ["705"],
          fun _ _ _ => [⟨"A", 1, ⟨"甲", "StopA"⟩⟩, ⟨"B", 2, ⟨"乙", "StopB"⟩⟩]⟩ = .ok r ∧
      r.stop_type = .ok StopType.orig) := by
  exact ⟨⟨⟨Company.mtrlrt, "705", Direction.outbound, "A", "default", Locale.en⟩,
      Company.mtrlrt,
      buildStopDict [⟨"A", 1, ⟨"甲", "StopA"⟩⟩, ⟨"B", 2, ⟨"乙", "StopB"⟩⟩]⟩, rfl, rfl⟩

/-- C10 amended: for light-rail routes 705/706, the synthetic circular
destination dict carries the key `stop_id` instead of `id`, so `stop_type`
raises `KeyError` for every queried stop *other than the origin* (whose check
precedes the destination read), while `dest_name`, which reads only the
destination's `name`, still succeeds with the circular label. -/
theorem stop_type_circular_keyerror (entry : RouteQuery) (t : TransportData)
    (r : Route) (hinit : Route.init entry t = .ok r)
    (hco : entry.transport = Company.mtrlrt)
    (hno : entry.no = "705" ∨ entry.no = "706")
    (horig : ∀ o, r.origin = some o → o.id ≠ entry.stop_id) :
    r.stop_type = .error (.keyError "id") ∧
    r.dest_name = .ok (tswCircularLabel entry.locale) := by
  obtain ⟨hentry, _, _, _⟩ := route_init_ok entry t r hinit
  have hne : r.values ≠ [] := route_values_ne_nil entry t r hinit
  obtain ⟨o, hhead⟩ : ∃ o, r.values.head? = some o := by
    cases hv : r.values with
    | nil => exact absurd hv hne
    | cons a l => exact ⟨a, by simp⟩
  have hlast : r.values.getLast? = some (r.values.getLast hne) :=
    List.getLast?_eq_getLast _ hne
  have hcond : r.entry.transport = Company.mtrlrt ∧
      (r.entry.no = "705" ∨ r.entry.no = "706") := by
    rw [hentry]; exact ⟨hco, hno⟩
  have hdest : r.destination = some (mkCircularStop (r.values.getLast hne).id
      (r.values.getLast hne).seq) := by
    unfold Route.destination
    rw [hlast]
    dsimp only [Option.map_some']
    rw [if_pos hcond]
  have hoid : ¬(o.id = r.entry.stop_id) := by
    rw [hentry]
    exact horig o hhead
  constructor
  · unfold Route.stop_type Route.origin
    rw [hhead]
    dsimp only
    rw [if_neg hoid, hdest]
    dsimp only
    rw [idStr_circular]
  · unfold Route.dest_name
    rw [hdest]
    dsimp only
    rw [nameMap_circular]
    rw [hentry]
    cases entry.locale <;> rfl

/-- Witness for the amended C10 at a concrete non-origin stop of route 705. -/
theorem stop_type_circular_keyerror_witness :
    (∃ r : Route,
      Route.init ⟨Company.mtrlrt, "705", Direction.outbound, "B", "default", Locale.tc⟩
        ⟨Company.mtrlrt, ["705"],
          fun _ _ _ => [⟨"A", 1, ⟨"甲", "StopA"⟩⟩, ⟨"B", 2, ⟨"乙", "StopB"⟩⟩]⟩ = .ok r ∧
      r.stop_type = .error (.keyError "id") ∧
      r.dest_name = .ok "天水圍循環綫") := by
  have hinit : Route.init
      ⟨Company.mtrlrt, "705", Direction.outbound, "B", "default", Locale.tc⟩
      ⟨Company.mtrlrt, ["705"],
        fun _ _ _ => [⟨"A", 1, ⟨"甲", "StopA"⟩⟩, ⟨"B", 2, ⟨"乙", "StopB"⟩⟩]⟩
      = .ok ⟨⟨Company.mtrlrt, "705", Direction.outbound, "B", "default", Locale.tc⟩,
          Company.mtrlrt,
          buildStopDict [⟨"A", 1, ⟨"甲", "StopA"⟩⟩, ⟨"B", 2, ⟨"乙", "StopB"⟩⟩]⟩ := rfl
  refine ⟨_, hinit, ?_⟩
  have horig : ∀ o : StopData,
      (Route.mk ⟨Company.mtrlrt, "705", Direction.outbound, "B", "default", Locale.tc⟩
        Company.mtrlrt
        (buildStopDict [⟨"A", 1, ⟨"甲", "StopA"⟩⟩, ⟨"B", 2, ⟨"乙", "StopB"⟩⟩])).origin
        = some o →
      o.id ≠ "B" := by
    intro o ho
    have ho' : some (⟨"A", 1, ⟨"甲", "StopA"⟩⟩ : StopData) = some o := by
      rw [← ho]
      rfl
    cases ho'
    decide
  exact stop_type_circular_keyerror _ _ _ hinit rfl (Or.inl rfl) horig

/-! ## The unified ETA model and the KMB ETA processor -/

/-- A value of the open `extras` map of a time entry. -/
inductive ExtraVal where
  | str (s : String)
  | num (n : Int)
deriving DecidableEq, Repr

/-- Model of `Eta.Time` (models.py lines 60-70): the declared fields.  The pydantic
model declares `destination`, `is_arriving`, `is_scheduled`, `eta`, `remark`
and `extras` — and no `eta_minute` field.  The absolute `eta` timestamp is
kept as epoch seconds. -/
structure EtaTime where
  destination : String
  is_arriving : Bool
  is_scheduled : Bool
  eta : Option Int := none
  remark : Option String := none
  extras : List (String × ExtraVal) := []
deriving DecidableEq, Repr

/-- The constructor call `Eta.Time(destination=..., is_arriving=...,
is_scheduled=..., eta=..., eta_minute=..., remark=..., extras=...)` issued by
the ETA processors (eta_processor.py).  A pydantic `BaseModel` with the
default configuration ignores unknown constructor keyword arguments, and
`Eta.Time` declares no `eta_minute` field, so the `eta_minute` argument is
discarded. -/
def EtaTime.pyd (destination : String) (is_arriving is_scheduled : Bool)
    (eta : Option Int) (_eta_minute : Option Int) (remark : Option String)
    (extras : List (String × ExtraVal)) : EtaTime :=
  ⟨destination, is_arriving, is_scheduled, eta, remark, extras⟩

/-- The `etas` payload of `models.Eta`: `Union[list[Eta.Time], Eta.Error]`. -/
inductive EtaPayload where
  | times (entries : List EtaTime)
  | err (message : String)
deriving DecidableEq, Repr

/-- Model of `models.Eta` (models.py lines 47-58); `logo` keeps the provider identity
standing for the logo resource reference. -/
structure Eta where
  no : String
  origin : String
  destination : String
  stop_name : String
  locale : Locale
  logo : Company
  etas : EtaPayload
  timestamp : Int
deriving DecidableEq, Repr

/-- Model of `EtaProcessor._em("api-error")` (eta_processor.py lines 60-78). -/
def emApiError : Locale → String
  | .en => "API Error"
  | .tc => "API 錯誤"

/-- Model of `EtaProcessor._em("empty")`. -/
def emEmpty : Locale → String
  | .en => "No Data"
  | .tc => "沒有預報"

/-- Model of `EtaProcessor._em("eos")`. -/
def emEos : Locale → String
  | .en => "Not in Service"
  | .tc => "服務時間已過"

/-- Model of `EtaProcessor._em("ss-effect")`. -/
def emSsEffect : Locale → String
  | .en => "Special Service in Effect"
  | .tc => "特別車務安排"

/-- Model of `EtaProcessor._g_eta` (eta_processor.py lines 49-58); `now` is the
`datetime.now()` generation timestamp of the wrapper. -/
def gEta (r : Route) (now : Int) (payload : EtaPayload) : Except PyErr Eta :=
  match r.orig_name with
  | .error e => .error e
  | .ok origin =>
    match r.dest_name with
    | .error e => .error e
    | .ok destination =>
      match r.stop_name with
      | .error e => .error e
      | .ok stop_name =>
        .ok ⟨r.entry.no, origin, destination, stop_name, r.entry.locale,
          r.providerCompany, payload, now⟩

/-- One element of `response['data']` of the KMB ETA endpoint, the fields
`KmbEta.etas` reads; the `eta` ISO timestamp is kept parsed (`None` is
`none`), `generated_timestamp` likewise in the response below. -/
structure KmbEntry where
  seq : Nat
  dir : String
  eta : Option Int
  rmk_tc : String
  rmk_en : String
  dest_tc : String
  dest_en : String
deriving DecidableEq, Repr

/-- Model of `stop[f'rmk_{locale}']`. -/
def KmbEntry.rmk (e : KmbEntry) : Locale → String
  | .tc => e.rmk_tc
  | .en => e.rmk_en

/-- Model of `stop[f'dest_{locale}']`. -/
def KmbEntry.dest (e : KmbEntry) : Locale → String
  | .tc => e.dest_tc
  | .en => e.dest_en

/-- A non-empty KMB ETA response (`len(response) == 0` is modelled by the
caller passing `none`). -/
structure KmbResponse where
  data : Option (List KmbEntry)
  generated_timestamp : Int
deriving DecidableEq, Repr

/-- The end-of-service remark `KmbEta.etas` compares against
(eta_processor.py line 103). -/
def kmbFinalBusRemark : String := "The final bus has departed from this stop"

/-- The `Eta.Time(...)` built for a timed KMB entry (eta_processor.py lines
110-118): `is_arriving` iff the entry is under 30 seconds out, `is_scheduled`
iff the remark is the scheduled-departure text, and an `eta_minute` argument
(whole minutes, truncated toward zero) that the model discards. -/
def kmbTimeEntry (loc : Locale) (ts : Int) (e : KmbEntry) (etaT : Int) : EtaTime :=
  EtaTime.pyd (e.dest loc) (decide (etaT - ts < 30))
    (decide (e.rmk loc = "原定班次" ∨ e.rmk loc = "Scheduled Bus"))
    (some etaT) (some (Int.tdiv (etaT - ts) 60)) (some (e.rmk loc)) []

/-- The `for stop in response['data']` loop of `KmbEta.etas`
(eta_processor.py lines 98-124), with the accumulated `etas` list: skip
entries of another stop sequence or direction letter; a matching entry with a
null `eta` short-circuits into an error payload selected by its English
remark; at most 3 timed entries are collected. -/
def kmbScan (seqQ : Nat) (dirQ : String) (loc : Locale) (ts : Int) :
    List KmbEntry → List EtaTime → EtaPayload
  | [], acc => .times acc
  | e :: rest, acc =>
    if e.seq ≠ seqQ ∨ e.dir ≠ dirQ then
      kmbScan seqQ dirQ loc ts rest acc
    else
      match e.eta with
      | none =>
        if e.rmk_en = kmbFinalBusRemark then .err (emEos loc)
        else if e.rmk_en = "" then .err (emEmpty loc)
        else .err (e.rmk loc)
      | some etaT =>
        let acc' := acc ++ [kmbTimeEntry loc ts e etaT]
        if acc'.length = 3 then .times acc'
        else kmbScan seqQ dirQ loc ts rest acc'

/-- Model of `KmbEta.etas` (eta_processor.py lines 85-126).  `route.stop_seq()` (first
evaluated inside the loop) cannot raise for a constructed route, so it is
evaluated up front. -/
def kmbEtas (r : Route) (now : Int) (resp : Option KmbResponse) :
    Except PyErr Eta :=
  match resp with
  | none => gEta r now (.err (emApiError r.entry.locale))
  | some resp =>
    match resp.data with
    | none => gEta r now (.err (emEmpty r.entry.locale))
    | some data =>
      match r.stop_seq with
      | .error e => .error e
      | .ok seqQ =>
        gEta r now (kmbScan seqQ r.entry.direction.firstLetterUpper
          r.entry.locale resp.generated_timestamp data [])

/-- The filter-free core of `kmbScan`, over the entries that already match
the queried stop sequence and direction. -/
def kmbScanM (loc : Locale) (ts : Int) :
    List KmbEntry → List EtaTime → EtaPayload
  | [], acc => .times acc
  | e :: rest, acc =>
    match e.eta with
    | none =>
      if e.rmk_en = kmbFinalBusRemark then .err (emEos loc)
      else if e.rmk_en = "" then .err (emEmpty loc)
      else .err (e.rmk loc)
    | some etaT =>
      let acc' := acc ++ [kmbTimeEntry loc ts e etaT]
      if acc'.length = 3 then .times acc'
      else kmbScanM loc ts rest acc'

/-- The matching predicate of the KMB loop. -/
def kmbMatch (seqQ : Nat) (dirQ : String) (e : KmbEntry) : Bool :=
  decide (e.seq = seqQ) && decide (e.dir = dirQ)

theorem kmbScan_eq_scanM (seqQ : Nat) (dirQ : String) (loc : Locale) (ts : Int)
    (es : List KmbEntry) (acc : List EtaTime) :
    kmbScan seqQ dirQ loc ts es acc
      = kmbScanM loc ts (es.filter (kmbMatch seqQ dirQ)) acc := by
  induction es generalizing acc with
  | nil => rfl
  | cons e rest ih =>
    by_cases hm : e.seq = seqQ ∧ e.dir = dirQ
    · have hfilter : (e :: rest).filter (kmbMatch seqQ dirQ)
          = e :: rest.filter (kmbMatch seqQ dirQ) := by
        simp [kmbMatch, hm.1, hm.2]
      rw [hfilter]
      unfold kmbScan kmbScanM
      rw [if_neg (by push_neg; exact ⟨hm.1, hm.2⟩)]
      cases e.eta with
      | none => rfl
      | some etaT =>
        dsimp only
        split
        · rfl
        · exact ih _
    · have hfilter : (e :: rest).filter (kmbMatch seqQ dirQ)
          = rest.filter (kmbMatch seqQ dirQ) := by
        rcases not_and_or.mp hm with h | h <;> simp [kmbMatch, h]
      rw [hfilter]
      unfold kmbScan
      rw [if_pos (by tauto)]
      exact ih acc

theorem kmbScanM_eos (loc : Locale) (ts : Int) (xs : List KmbEntry)
    (e : KmbEntry) (rest : List KmbEntry) (acc : List EtaTime)
    (hall : ∀ x ∈ xs, x.eta.isSome) (hlen : acc.length + xs.length ≤ 2)
    (hnone : e.eta = none) (hrmk : e.rmk_en = kmbFinalBusRemark) :
    kmbScanM loc ts (xs ++ e :: rest) acc = .err (emEos loc) := by
  induction xs generalizing acc with
  | nil =>
    simp only [List.nil_append]
    unfold kmbScanM
    rw [hnone]
    dsimp only
    rw [if_pos hrmk]
  | cons x xs ih =>
    have hx : x.eta.isSome := hall x (by simp)
    obtain ⟨t, ht⟩ := Option.isSome_iff_exists.mp hx
    simp only [List.cons_append]
    unfold kmbScanM
    rw [ht]
    dsimp only
    simp only [List.length_cons] at hlen
    rw [if_neg (by simp only [List.length_append, List.length_singleton]; omega)]
    exact ih _ (fun y hy => hall y (List.mem_cons_of_mem _ hy))
      (by simp only [List.length_append, List.length_singleton]; omega)

/-- What a timed entry of the scan looks like, given the entry's parsed eta. -/
def kmbToTime (loc : Locale) (ts : Int) (e : KmbEntry) : EtaTime :=
  kmbTimeEntry loc ts e (e.eta.getD 0)

theorem kmbScanM_times (loc : Locale) (ts : Int) (ms : List KmbEntry)
    (acc : List EtaTime) (l : List EtaTime) (hacc : acc.length < 3)
    (h : kmbScanM loc ts ms acc = .times l) :
    l.length ≤ 3 ∧
    ∃ n, l = acc ++ (ms.take n).map (kmbToTime loc ts) ∧
      ∀ x ∈ ms.take n, x.eta.isSome := by
  induction ms generalizing acc l with
  | nil =>
    unfold kmbScanM at h
    cases h
    exact ⟨by omega, 0, by simp, by simp⟩
  | cons e ms ih =>
    unfold kmbScanM at h
    cases he : e.eta with
    | none =>
      rw [he] at h
      dsimp only at h
      split at h <;> first | exact absurd h (by simp) | skip
      split at h <;> exact absurd h (by simp)
    | some t =>
      rw [he] at h
      dsimp only at h
      by_cases h3 : (acc ++ [kmbTimeEntry loc ts e t]).length = 3
      · rw [if_pos h3] at h
        cases h
        refine ⟨by rw [h3], 1, ?_, ?_⟩
        · simp [kmbToTime, he]
        · intro x hx
          simp only [List.take_succ_cons, List.take_zero, List.mem_singleton] at hx
          subst hx
          simp [he]
      · rw [if_neg h3] at h
        have hlen' : (acc ++ [kmbTimeEntry loc ts e t]).length < 3 := by
          simp only [List.length_append, List.length_singleton] at h3 ⊢
          omega
        obtain ⟨hl3, n, hl, hsome⟩ := ih _ _ hlen' h
        refine ⟨hl3, n + 1, ?_, ?_⟩
        · rw [hl]
          simp [kmbToTime, he]
        · intro x hx
          simp only [List.take_succ_cons, List.mem_cons] at hx
          rcases hx with hx | hx
          · subst hx
            simp [he]
          · exact hsome x hx

/-- For a constructed route, each of the metadata accessors used by `_g_eta`
succeeds. -/
theorem constructed_route_ops_ok (entry : RouteQuery) (t : TransportData)
    (r : Route) (hinit : Route.init entry t = .ok r) :
    (∃ a, r.orig_name = .ok a) ∧ (∃ b, r.dest_name = .ok b) ∧
    (∃ c, r.stop_name = .ok c) ∧ (∃ n, r.stop_seq = .ok n) := by
  obtain ⟨hentry, _, hdict, hany⟩ := route_init_ok entry t r hinit
  have hne : r.values ≠ [] := route_values_ne_nil entry t r hinit
  obtain ⟨o, hhead⟩ : ∃ o, r.values.head? = some o := by
    cases hv : r.values with
    | nil => exact absurd hv hne
    | cons a l => exact ⟨a, by simp⟩
  have hlast : r.values.getLast? = some (r.values.getLast hne) :=
    List.getLast?_eq_getLast _ hne
  have hkey : dictHasKey r.stop_dict entry.stop_id = true := by
    rw [hdict, dictHasKey_buildStopDict]
    exact hany
  obtain ⟨p, hp, hpk⟩ : ∃ p ∈ r.stop_dict, p.1 = entry.stop_id := by
    unfold dictHasKey at hkey
    rcases List.any_eq_true.mp hkey with ⟨k, hk, hkk⟩
    rcases List.mem_map.mp hk with ⟨p, hp, hpe⟩
    exact ⟨p, hp, by rw [hpe]; exact of_decide_eq_true hkk⟩
  have hfind : ∃ s, dictLookup r.stop_dict r.entry.stop_id = some s := by
    unfold dictLookup
    have hsome : (r.stop_dict.find? (fun q => q.1 = r.entry.stop_id)).isSome := by
      rw [List.find?_isSome]
      exact ⟨p, hp, by rw [hentry]; simp [hpk]⟩
    obtain ⟨q, hq⟩ := Option.isSome_iff_exists.mp hsome
    exact ⟨q.2, by rw [hq]; rfl⟩
  refine ⟨⟨o.name.get r.entry.locale, ?_⟩, ?_, ?_, ?_⟩
  · unfold Route.orig_name Route.origin
    rw [hhead]
  · unfold Route.dest_name Route.destination
    rw [hlast]
    dsimp only [Option.map_some']
    by_cases hcond : r.entry.transport = Company.mtrlrt ∧
        (r.entry.no = "705" ∨ r.entry.no = "706")
    · rw [if_pos hcond, nameMap_circular]
      exact ⟨_, rfl⟩
    · rw [if_neg hcond, nameMap_toDict]
      exact ⟨_, rfl⟩
  · obtain ⟨s, hs⟩ := hfind
    unfold Route.stop_name
    rw [hs]
    exact ⟨_, rfl⟩
  · obtain ⟨s, hs⟩ := hfind
    unfold Route.stop_seq
    rw [hs]
    exact ⟨_, rfl⟩

/-- For a constructed route, `_g_eta` wraps any payload successfully and the
wrapped value carries that payload. -/
theorem gEta_ok (entry : RouteQuery) (t : TransportData) (r : Route)
    (hinit : Route.init entry t = .ok r) (now : Int) (p : EtaPayload) :
    ∃ e : Eta, gEta r now p = .ok e ∧ e.etas = p := by
  obtain ⟨⟨a, ha⟩, ⟨b, hb⟩, ⟨c, hc⟩, _⟩ := constructed_route_ops_ok entry t r hinit
  unfold gEta
  rw [ha, hb, hc]
  exact ⟨_, rfl, rfl⟩

/-- A concrete KMB route query: route "1", service type "1", outbound, at the
stop of sequence 5, English locale. -/
def kmbQuery : RouteQuery := ⟨Company.kmb, "1", Direction.outbound, "S5", "1", Locale.en⟩

/-- The resolved stop list for `kmbQuery`. -/
def kmbStops : List StopData :=
  [⟨"S1", 1, ⟨"一", "First"⟩⟩, ⟨"S5", 5, ⟨"五", "Fifth"⟩⟩]

/-- A concrete KMB catalog for `kmbQuery`. -/
def kmbCatalog : TransportData := ⟨Company.kmb, ["1"], fun _ _ _ => kmbStops⟩

/-- The route `Route.init kmbQuery kmbCatalog` constructs. -/
def kmbRoute : Route := ⟨kmbQuery, Company.kmb, buildStopDict kmbStops⟩

theorem kmbRoute_init : Route.init kmbQuery kmbCatalog = .ok kmbRoute := rfl

/-- Upstream data in which a matching final-bus entry is *preceded* by a
matching null-eta entry with an empty remark. -/
def kmbDataFinalBusLate : List KmbEntry :=
  [⟨5, "O", none, "", "", "終點", "Terminus"⟩,
   ⟨5, "O", none, "", kmbFinalBusRemark, "終點", "Terminus"⟩]

/-- C4 counterexample: the response contains, for the queried stop sequence
and direction, a null-eta entry carrying the final-bus English remark, yet
`compute_etas` returns the "No Data" error payload (the earlier null-eta
entry wins), not the "Not in Service" message the claim requires. -/
theorem kmb_final_bus_counterexample :
    (Route.init kmbQuery kmbCatalog = .ok kmbRoute) ∧
    (∃ e ∈ kmbDataFinalBusLate,
      e.seq = 5 ∧ e.dir = "O" ∧ e.eta = none ∧ e.rmk_en = kmbFinalBusRemark) ∧
    (kmbEtas kmbRoute 1000 (some ⟨some kmbDataFinalBusLate, 900⟩)).map Eta.etas
      = .ok (.err "No Data") ∧
    "No Data" ≠ "Not in Service" := by
  refine ⟨rfl, ?_, rfl, by decide⟩
  refine ⟨⟨5, "O", none, "", kmbFinalBusRemark, "終點", "Terminus"⟩, ?_, rfl, rfl, rfl, rfl⟩
  simp [kmbDataFinalBusLate]

/-- C4 amended: if, among the response entries matching the queried stop
sequence and direction, a null-eta entry with the final-bus English remark is
the first null-eta entry and at most two timed entries precede it, then
`compute_etas` yields the locale-appropriate "Not in Service" error payload
and never a time-entry list. -/
theorem kmb_final_bus_eos (entry : RouteQuery) (t : TransportData) (r : Route)
    (hinit : Route.init entry t = .ok r) (now : Int) (resp : KmbResponse)
    (data : List KmbEntry) (hdata : resp.data = some data)
    (seqQ : Nat) (hseq : r.stop_seq = .ok seqQ)
    (xs : List KmbEntry) (e : KmbEntry) (rest : List KmbEntry)
    (hms : data.filter (kmbMatch seqQ r.entry.direction.firstLetterUpper)
      = xs ++ e :: rest)
    (hxs : ∀ x ∈ xs, x.eta.isSome) (hlen : xs.length ≤ 2)
    (hnone : e.eta = none) (hrmk : e.rmk_en = kmbFinalBusRemark) :
    (kmbEtas r now (some resp)).map Eta.etas
      = .ok (.err (emEos r.entry.locale)) := by
  obtain ⟨ee, hee, hetas⟩ := gEta_ok entry t r hinit now
    (kmbScan seqQ r.entry.direction.firstLetterUpper r.entry.locale
      resp.generated_timestamp data [])
  unfold kmbEtas
  dsimp only
  rw [hdata]
  dsimp only
  rw [hseq]
  dsimp only
  rw [hee]
  simp only [Except.map]
  rw [hetas, kmbScan_eq_scanM, hms,
    kmbScanM_eos r.entry.locale resp.generated_timestamp xs e rest [] hxs
      (by simpa using hlen) hnone hrmk]

/-- Witness for the amended C4: the final-bus entry is the first matching
entry of the response. -/
theorem kmb_final_bus_eos_witness :
    (kmbEtas kmbRoute 999
        (some ⟨some [⟨5, "O", none, "", kmbFinalBusRemark, "終點", "Terminus"⟩], 900⟩)).map
        Eta.etas
      = .ok (.err "Not in Service") := by
  exact kmb_final_bus_eos kmbQuery kmbCatalog kmbRoute kmbRoute_init 999
    ⟨some [⟨5, "O", none, "", kmbFinalBusRemark, "終點", "Terminus"⟩], 900⟩
    [⟨5, "O", none, "", kmbFinalBusRemark, "終點", "Terminus"⟩] rfl
    5 rfl
    [] ⟨5, "O", none, "", kmbFinalBusRemark, "終點", "Terminus"⟩ [] rfl
    (by intro x hx; cases hx) (by decide) rfl rfl

/-- The upstream fixture of the C5 scenario: three matching entries 6, 15 and
23 minutes after the generation timestamp 1000, the first carrying the
"行車受阻" remark. -/
def kmbFixtureData : List KmbEntry :=
  [⟨5, "O", some 1360, "行車受阻", "行車受阻", "目的地", "Dest"⟩,
   ⟨5, "O", some 1900, "", "", "目的地", "Dest"⟩,
   ⟨5, "O", some 2380, "", "", "目的地", "Dest"⟩]

/-- The C5 fixture response. -/
def kmbFixtureResp : KmbResponse := ⟨some kmbFixtureData, 1000⟩

/-- C5: every time entry the KMB processor emits comes from an upstream entry
matching the queried stop sequence and direction letter, in upstream order (a
prefix of the matching entries), at most 3 of them; `is_arriving` holds
exactly when the entry is under 30 seconds out; and the concrete 6/15/23
minute fixture yields exactly 3 entries, the first not arriving, not
scheduled, with its remark populated. -/
theorem kmb_times_properties :
    (∀ (entry : RouteQuery) (t : TransportData) (r : Route),
      Route.init entry t = .ok r →
      ∀ (now : Int) (resp : KmbResponse) (data : List KmbEntry) (seqQ : Nat)
        (l : List EtaTime),
        resp.data = some data → r.stop_seq = .ok seqQ →
        (kmbEtas r now (some resp)).map Eta.etas = .ok (.times l) →
        l.length ≤ 3 ∧
        ∃ n, l = ((data.filter (kmbMatch seqQ r.entry.direction.firstLetterUpper)).take n).map
              (kmbToTime r.entry.locale resp.generated_timestamp) ∧
          ∀ x ∈ (data.filter (kmbMatch seqQ r.entry.direction.firstLetterUpper)).take n,
            x.eta.isSome) ∧
    (∀ (loc : Locale) (ts : Int) (e : KmbEntry) (etaT : Int),
      (kmbTimeEntry loc ts e etaT).is_arriving = decide (etaT - ts < 30)) ∧
    (kmbEtas kmbRoute 1000 (some kmbFixtureResp)
      = .ok ⟨"1", "First", "Fifth", "Fifth", Locale.en, Company.kmb,
          .times [⟨"Dest", false, false, some 1360, some "行車受阻", []⟩,
                  ⟨"Dest", false, false, some 1900, some "", []⟩,
                  ⟨"Dest", false, false, some 2380, some "", []⟩],
          1000⟩) := by
  refine ⟨?_, fun _ _ _ _ => rfl, rfl⟩
  intro entry t r hinit now resp data seqQ l hdata hseq h
  obtain ⟨ee, hee, hetas⟩ := gEta_ok entry t r hinit now
    (kmbScan seqQ r.entry.direction.firstLetterUpper r.entry.locale
      resp.generated_timestamp data [])
  unfold kmbEtas at h
  dsimp only at h
  rw [hdata] at h
  dsimp only at h
  rw [hseq] at h
  dsimp only at h
  rw [hee] at h
  simp only [Except.map] at h
  have hpay : kmbScan seqQ r.entry.direction.firstLetterUpper r.entry.locale
      resp.generated_timestamp data [] = .times l := by
    rw [← hetas]
    exact Except.ok.inj h
  rw [kmbScan_eq_scanM] at hpay
  obtain ⟨hl3, n, hl, hsome⟩ := kmbScanM_times r.entry.locale
    resp.generated_timestamp _ [] l (by simp) hpay
  exact ⟨hl3, n, by simpa using hl, hsome⟩

/-- Witness for C5 at the concrete fixture. -/
theorem kmb_times_properties_witness :
    ([(⟨"Dest", false, false, some 1360, some "行車受阻", []⟩ : EtaTime),
      ⟨"Dest", false, false, some 1900, some "", []⟩,
      ⟨"Dest", false, false, some 2380, some "", []⟩] : List EtaTime).length ≤ 3 ∧
    ∃ n, ([(⟨"Dest", false, false, some 1360, some "行車受阻", []⟩ : EtaTime),
      ⟨"Dest", false, false, some 1900, some "", []⟩,
      ⟨"Dest", false, false, some 2380, some "", []⟩] : List EtaTime)
        = ((kmbFixtureData.filter (kmbMatch 5 "O")).take n).map (kmbToTime Locale.en 1000) ∧
      ∀ x ∈ (kmbFixtureData.filter (kmbMatch 5 "O")).take n, x.eta.isSome := by
  exact kmb_times_properties.1 kmbQuery kmbCatalog kmbRoute kmbRoute_init
    1000 kmbFixtureResp kmbFixtureData 5 _ rfl rfl rfl

/-- C8: the `eta_minute` keyword passed at every `Eta.Time(...)` call site is
discarded — two constructor calls differing only in `eta_minute` build the
same time entry, because the pydantic model declares no such field. -/
theorem eta_minute_discarded :
    ∀ (d : String) (arr sch : Bool) (e : Option Int) (m1 m2 : Option Int)
      (rm : Option String) (x : List (String × ExtraVal)),
      EtaTime.pyd d arr sch e m1 rm x = EtaTime.pyd d arr sch e m2 rm x := by
  intro d arr sch e m1 m2 rm x
  rfl

/-! ## The light-rail ETA processor -/

/-- One element of a platform's `route_list` in the light-rail ETA response,
with the fields `MtrLrtEta.etas` reads; `dest_ch`/`dest_en` model
`eta.get('dest_...')` (absent for some routes), `stop` models
`eta.get("stop")`. -/
structure LrtEntry where
  route_no : String
  dest_ch : Option String
  dest_en : Option String
  stop : Option Nat
  time_ch : String
  time_en : String
  train_length : Nat
deriving DecidableEq, Repr

/-- Model of `eta.get(f'dest_{lang_code}')`. -/
def LrtEntry.dest (e : LrtEntry) : Locale → Option String
  | .tc => e.dest_ch
  | .en => e.dest_en

/-- Model of `eta[f'time_{lang_code}']`. -/
def LrtEntry.time (e : LrtEntry) : Locale → String
  | .tc => e.time_ch
  | .en => e.time_en

/-- One element of `response['platform_list']`; `end_service_status` is
`platform.get("end_service_status", False)` and `route_list` is
`platform.get("route_list", [])`. -/
structure LrtPlatform where
  platform_id : Nat
  end_service_status : Bool
  route_list : List LrtEntry
deriving DecidableEq, Repr

/-- A non-empty light-rail ETA response (an empty response dict is modelled
by the caller passing `none`); `status` is `response.get('status', 0)`,
`system_time` the parsed `response['system_time']`, and `red_alert` is `some`
exactly when the key `red_alert_status` is present, carrying the
`red_alert_message_{ch,en}` pair. -/
structure LrtResponse where
  status : Nat
  system_time : Int
  platform_list : List LrtPlatform
  red_alert : Option BiName
deriving DecidableEq, Repr

/-- Python `s.split(" ")[0]`. -/
def firstToken (s : String) : String :=
  (s.splitOn " ").headD ""

/-- Python `str.isnumeric` restricted to the decimal digits the upstream
feed uses. -/
def pyIsNumeric (s : String) : Bool :=
  !s.isEmpty && s.all Char.isDigit

/-- Python `int(...)` on a digit string. -/
def pyNatOfDigits (s : String) : Nat :=
  s.foldl (fun n c => n * 10 + (c.toNat - 48)) 0

/-- Processing of one `route_list` element in the loop of `MtrLrtEta.etas`
(eta_processor.py lines 201-242) over the state (collected entries, stopped
counter): skip foreign route numbers, count `stop == 1` markers, skip entries
for another destination, then append an `Eta.Time` built from the minute
text.  At the append the `destination` local equals the route's resolved
destination name (the preceding filter guarantees it). -/
def lrtEntryStep (no destName : String) (loc : Locale) (ts : Int) (pid : Nat)
    (st : List EtaTime × Nat) (e : LrtEntry) : List EtaTime × Nat :=
  if e.route_no ≠ no then st
  else if e.stop = some 1 then (st.1, st.2 + 1)
  else if e.dest loc ≠ some destName then st
  else
    let m := firstToken (e.time loc)
    if pyIsNumeric m then
      (st.1 ++ [EtaTime.pyd destName false false
        (some (ts + 60 * (pyNatOfDigits m : Int))) (some (pyNatOfDigits m : Int)) none
        [("platform", .str (toString pid)), ("car_length", .num e.train_length)]],
       st.2)
    else
      (st.1 ++ [EtaTime.pyd destName true false
        (some ts) (some 0) (some m)
        [("platform", .str (toString pid)), ("car_length", .num e.train_length)]],
       st.2)

/-- The nested platform/entry loops of `MtrLrtEta.etas`. -/
def lrtScan (no destName : String) (loc : Locale) (ts : Int)
    (platforms : List LrtPlatform) : List EtaTime × Nat :=
  platforms.foldl
    (fun st p => p.route_list.foldl (lrtEntryStep no destName loc ts p.platform_id) st)
    ([], 0)

/-- Model of `MtrLrtEta.etas` (eta_processor.py lines 187-253).  A result of
`.ok none` is the Python function falling off its end and implicitly
returning `None`.  `route.destination()["name"].get(locale)` cannot raise for
a constructed route and is evaluated up front. -/
def mtrLrtEtas (r : Route) (now : Int) (resp : Option LrtResponse) :
    Except PyErr (Option Eta) :=
  match resp with
  | none => (gEta r now (.err (emApiError r.entry.locale))).map some
  | some resp =>
    if resp.status = 0 then
      (gEta r now (.err (emApiError r.entry.locale))).map some
    else if resp.platform_list.all (fun p => p.end_service_status) then
      (gEta r now (.err (emEos r.entry.locale))).map some
    else
      match r.dest_name with
      | .error e => .error e
      | .ok destName =>
        let st := lrtScan r.entry.no destName r.entry.locale resp.system_time
          resp.platform_list
        if st.1.length > 0 then
          (gEta r now (.times st.1)).map some
        else
          match resp.red_alert with
          | some msg => (gEta r now (.err (msg.get r.entry.locale))).map some
          | none =>
            if st.2 > 0 then
              (gEta r now (.err (emEos r.entry.locale))).map some
            else
              .ok none

/-- A concrete light-rail query for route 614 at its first stop. -/
def lrtQuery : RouteQuery :=
  ⟨Company.mtrlrt, "614", Direction.outbound, "L1", "default", Locale.en⟩

/-- The resolved stop list for `lrtQuery`. -/
def lrtStops : List StopData :=
  [⟨"L1", 1, ⟨"第一", "LrtFirst"⟩⟩, ⟨"L2", 2, ⟨"第二", "LrtSecond"⟩⟩]

/-- A concrete light-rail catalog for `lrtQuery`. -/
def lrtCatalog : TransportData := ⟨Company.mtrlrt, ["614"], fun _ _ _ => lrtStops⟩

/-- The route `Route.init lrtQuery lrtCatalog` constructs. -/
def lrtRoute : Route := ⟨lrtQuery, Company.mtrlrt, buildStopDict lrtStops⟩

/-- A light-rail response that passes the API-error check (`status = 1`) and
the end-of-service check (one serving platform), but whose only entry belongs
to another route; no red-alert key, no stopped-platform marker. -/
def lrtNoMatchResp : LrtResponse :=
  ⟨1, 5000,
    [⟨1, false, [⟨"610", some "屯門", some "Tuen Mun", none, "3 分鐘", "3 min", 2⟩]⟩],
    none⟩

/-- C1: for the light-rail provider, a response that passes the initial
API-error and end-of-service checks but matches no entry of the queried
route — with no red alert and no stopped platform — makes `MtrLrtEta.etas`
fall off the end and return `None` instead of a unified ETA value. -/
theorem mtr_lrt_etas_returns_none :
    Route.init lrtQuery lrtCatalog = .ok lrtRoute ∧
    mtrLrtEtas lrtRoute 5100 (some lrtNoMatchResp) = .ok none :=
  ⟨rfl, rfl⟩

/-! ## The on-disk catalog cache -/

/-- The wrapper `_append_timestamp` produces (transport.py lines 37-41), with
`last_update` kept as epoch seconds; the ISO-8601 text representation is
studied separately below. -/
structure CacheRecord (α : Type) where
  last_update : Int
  data : α
deriving DecidableEq, Repr

/-- The staleness test of `Transport._is_outdated` (transport.py line 181):
`(datetime.now() - lastupd).days > self.threshold`, where `timedelta.days`
floors toward minus infinity (whole days). -/
def isOutdated (now threshold : Int) (lastupd : Int) : Bool :=
  (now - lastupd).fdiv 86400 > threshold

/-- Model of `Transport._is_outdated` on a file path (transport.py lines 171-178): a
missing file is outdated. -/
def isOutdatedFile {α : Type} (now threshold : Int)
    (file : Option (CacheRecord α)) : Bool :=
  match file with
  | none => true
  | some c => isOutdated now threshold c.last_update

/-- One `Transport.stop_list` read (transport.py lines 143-155) against the
cache file of its key: yields the served stop data, the resulting file
content, and the number of upstream fetches performed. -/
def stopListRead {α : Type} (now threshold : Int) (fetched : α)
    (file : Option (CacheRecord α)) : α × CacheRecord α × Nat :=
  if isOutdatedFile now threshold file then
    (fetched, ⟨now, fetched⟩, 1)
  else
    match file with
    | none => (fetched, ⟨now, fetched⟩, 1)
    | some c => (c.data, c, 0)

/-- One `Transport.route_list` read (transport.py lines 102-127): the
in-memory memo `self._routes` is loaded (from the file when present, else by
one fetch-and-persist), then refetched and re-persisted if outdated.  Yields
the served data, the new memo, the new file content, and the number of
upstream fetches. -/
def routeListRead {α : Type} (now threshold : Int) (fetched : α)
    (memo : Option (CacheRecord α)) (file : Option (CacheRecord α)) :
    α × CacheRecord α × Option (CacheRecord α) × Nat :=
  let load : CacheRecord α × Option (CacheRecord α) × Nat :=
    match memo with
    | some m => (m, file, 0)
    | none =>
      match file with
      | some f => (f, file, 0)
      | none => (⟨now, fetched⟩, some ⟨now, fetched⟩, 1)
  if isOutdated now threshold load.1.last_update then
    (fetched, ⟨now, fetched⟩, some ⟨now, fetched⟩, load.2.2 + 1)
  else
    (load.1.data, load.1, load.2.1, load.2.2)

/-- C2: for both catalog reads, a record whose whole-day age exceeds the
threshold triggers exactly one refetch and is overwritten with the current
timestamp before returning the fetched data; a record within the threshold
triggers zero fetches and serves the cached data; a missing record behaves
like a stale one (one fetch, persisted with the current timestamp). -/
theorem catalog_cache_staleness {α : Type} (now threshold : Int)
    (hth : 0 ≤ threshold) (fetched : α) :
    (stopListRead now threshold fetched (none : Option (CacheRecord α))
      = (fetched, ⟨now, fetched⟩, 1)) ∧
    (∀ c : CacheRecord α, isOutdated now threshold c.last_update = true →
      stopListRead now threshold fetched (some c) = (fetched, ⟨now, fetched⟩, 1)) ∧
    (∀ c : CacheRecord α, isOutdated now threshold c.last_update = false →
      stopListRead now threshold fetched (some c) = (c.data, c, 0)) ∧
    (routeListRead now threshold fetched (none : Option (CacheRecord α)) none
      = (fetched, ⟨now, fetched⟩, some ⟨now, fetched⟩, 1)) ∧
    (∀ (m : CacheRecord α) (file : Option (CacheRecord α)),
      isOutdated now threshold m.last_update = false →
      routeListRead now threshold fetched (some m) file = (m.data, m, file, 0)) ∧
    (∀ (m : CacheRecord α) (file : Option (CacheRecord α)),
      isOutdated now threshold m.last_update = true →
      routeListRead now threshold fetched (some m) file
        = (fetched, ⟨now, fetched⟩, some ⟨now, fetched⟩, 1)) ∧
    (∀ f : CacheRecord α, isOutdated now threshold f.last_update = false →
      routeListRead now threshold fetched none (some f) = (f.data, f, some f, 0)) ∧
    (∀ f : CacheRecord α, isOutdated now threshold f.last_update = true →
      routeListRead now threshold fetched none (some f)
        = (fetched, ⟨now, fetched⟩, some ⟨now, fetched⟩, 1)) := by
  have hfresh : isOutdated now threshold now = false := by
    unfold isOutdated
    rw [sub_self, Int.zero_fdiv]
    simp only [gt_iff_lt, decide_eq_false_iff_not, not_lt]
    exact hth
  refine ⟨rfl, ?_, ?_, ?_, ?_, ?_, ?_, ?_⟩
  · intro c hc
    unfold stopListRead isOutdatedFile
    dsimp only
    rw [hc]
    rfl
  · intro c hc
    unfold stopListRead isOutdatedFile
    dsimp only
    rw [hc]
    rfl
  · unfold routeListRead
    dsimp only
    rw [hfresh]
    rfl
  · intro m file hm
    unfold routeListRead
    dsimp only
    rw [hm]
    rfl
  · intro m file hm
    unfold routeListRead
    dsimp only
    rw [hm]
    rfl
  · intro f hf
    unfold routeListRead
    dsimp only
    rw [hf]
    rfl
  · intro f hf
    unfold routeListRead
    dsimp only
    rw [hf]
    rfl

/-- Witness for C2 at concrete records: threshold 30 days, a 31-day-old
record is refetched once, a 29-day-old record is served with no fetch, and a
missing record is fetched once and persisted. -/
theorem catalog_cache_staleness_witness :
    (stopListRead 2678400000 30 [7] (none : Option (CacheRecord (List Nat)))
      = ([7], ⟨2678400000, [7]⟩, 1)) ∧
    (stopListRead 2678400000 30 [7] (some ⟨2678400000 - 31 * 86400, [3]⟩)
      = ([7], ⟨2678400000, [7]⟩, 1)) ∧
    (stopListRead 2678400000 30 [7] (some ⟨2678400000 - 29 * 86400, [3]⟩)
      = ([3], ⟨2678400000 - 29 * 86400, [3]⟩, 0)) ∧
    (routeListRead 2678400000 30 [7] (none : Option (CacheRecord (List Nat))) none
      = ([7], ⟨2678400000, [7]⟩, some ⟨2678400000, [7]⟩, 1)) := by
  have h := catalog_cache_staleness (α := List Nat) 2678400000 30 (by decide) [7]
  exact ⟨h.1, h.2.1 ⟨2678400000 - 31 * 86400, [3]⟩ (by decide),
    h.2.2.1 ⟨2678400000 - 29 * 86400, [3]⟩ (by decide), h.2.2.2.1⟩

/-! ## ISO-8601 timestamps and the on-disk wrapper round trip -/

/-- A Python `datetime` at the precision `_append_timestamp` handles:
calendar fields plus microseconds. -/
structure DateTime where
  year : Nat
  month : Nat
  day : Nat
  hour : Nat
  minute : Nat
  second : Nat
  micro : Nat
deriving DecidableEq, Repr

/-- Truncation to whole seconds, as `isoformat(timespec="seconds")`
performs before rendering. -/
def DateTime.truncSec (t : DateTime) : DateTime :=
  { t with micro := 0 }

/-- The decimal digit character of `n % 10`. -/
def digitChar (n : Nat) : Char := Char.ofNat (48 + n % 10)

/-- Zero-padded two-digit decimal rendering (`%02d` of the low two digits). -/
def pad2 (n : Nat) : List Char := [digitChar (n / 10), digitChar n]

/-- Zero-padded four-digit decimal rendering (`%04d`). -/
def pad4 (n : Nat) : List Char := pad2 (n / 100) ++ pad2 n

/-- Model of `datetime.isoformat(sep='T', timespec='seconds')` (as used by
`_append_timestamp` and `_8601str`): `YYYY-MM-DDTHH:MM:SS`, microseconds
dropped. -/
def DateTime.isoformat (t : DateTime) : String :=
  String.mk (pad4 t.year ++ ('-' :: (pad2 t.month ++ ('-' :: (pad2 t.day ++
    ('T' :: (pad2 t.hour ++ (':' :: (pad2 t.minute ++ (':' :: pad2 t.second))))))))))

/-- Read one decimal digit. -/
def readDigit : List Char → Option (Nat × List Char)
  | c :: rest => if c.isDigit then some (c.toNat - 48, rest) else none
  | [] => none

/-- Read two decimal digits. -/
def read2 (cs : List Char) : Option (Nat × List Char) :=
  match readDigit cs with
  | none => none
  | some (a, cs) =>
    match readDigit cs with
    | none => none
    | some (b, cs) => some (a * 10 + b, cs)

/-- Read four decimal digits. -/
def read4 (cs : List Char) : Option (Nat × List Char) :=
  match read2 cs with
  | none => none
  | some (a, cs) =>
    match read2 cs with
    | none => none
    | some (b, cs) => some (a * 100 + b, cs)

/-- Require a literal separator character. -/
def expectChar (c : Char) : List Char → Option (List Char)
  | x :: rest => if x = c then some rest else none
  | [] => none

/-- Model of `datetime.fromisoformat` on the exact shape `isoformat` writes, with the
field-range validation Python performs (the exact per-month day counts are
elided: every string this development applies it to was rendered from a real
`datetime`, whose day field satisfies them). -/
def fromisoformat (s : String) : Option DateTime :=
  match read4 s.data with
  | none => none
  | some (y, cs) =>
    match expectChar '-' cs with
    | none => none
    | some cs =>
      match read2 cs with
      | none => none
      | some (mo, cs) =>
        match expectChar '-' cs with
        | none => none
        | some cs =>
          match read2 cs with
          | none => none
          | some (d, cs) =>
            match expectChar 'T' cs with
            | none => none
            | some cs =>
              match read2 cs with
              | none => none
              | some (h, cs) =>
                match expectChar ':' cs with
                | none => none
                | some cs =>
                  match read2 cs with
                  | none => none
                  | some (mi, cs) =>
                    match expectChar ':' cs with
                    | none => none
                    | some cs =>
                      match read2 cs with
                      | none => none
                      | some (se, cs) =>
                        if cs = [] ∧ 1 ≤ mo ∧ mo ≤ 12 ∧ 1 ≤ d ∧ d ≤ 31 ∧
                            h < 24 ∧ mi < 60 ∧ se < 60 then
                          some ⟨y, mo, d, h, mi, se, 0⟩
                        else
                          none

theorem char_digit_facts : ∀ m < 10,
    (Char.ofNat (48 + m)).isDigit = true ∧ (Char.ofNat (48 + m)).toNat = 48 + m := by
  decide

theorem readDigit_digitChar (n : Nat) (rest : List Char) :
    readDigit (digitChar n :: rest) = some (n % 10, rest) := by
  obtain ⟨hd, ht⟩ := char_digit_facts (n % 10) (Nat.mod_lt _ (by norm_num))
  unfold readDigit digitChar
  dsimp only
  rw [if_pos hd, ht]
  simp

theorem read2_pad2 (n : Nat) (rest : List Char) :
    read2 (pad2 n ++ rest) = some (n % 100, rest) := by
  unfold pad2 read2
  simp only [List.cons_append, List.nil_append]
  rw [readDigit_digitChar]
  dsimp only
  rw [readDigit_digitChar]
  dsimp only
  have harith : n / 10 % 10 * 10 + n % 10 = n % 100 := by omega
  rw [harith]

theorem read4_pad4 (n : Nat) (rest : List Char) :
    read4 (pad4 n ++ rest) = some (n % 10000, rest) := by
  unfold pad4 read4
  rw [List.append_assoc, read2_pad2]
  dsimp only
  rw [read2_pad2]
  dsimp only
  have harith : n / 100 % 100 * 100 + n % 100 = n % 10000 := by omega
  rw [harith]

theorem expectChar_self (c : Char) (rest : List Char) :
    expectChar c (c :: rest) = some rest := by
  unfold expectChar
  dsimp only
  rw [if_pos rfl]

theorem string_data_mk (l : List Char) : (String.mk l).data = l := rfl

/-- The parse of an `isoformat` rendering recovers the datetime at second
precision. -/
theorem fromisoformat_isoformat (t : DateTime)
    (hy : t.year < 10000) (hmo1 : 1 ≤ t.month) (hmo : t.month ≤ 12)
    (hd1 : 1 ≤ t.day) (hd : t.day ≤ 31) (hh : t.hour < 24)
    (hmi : t.minute < 60) (hs : t.second < 60) :
    fromisoformat t.isoformat = some t.truncSec := by
  have hmo' : t.month % 100 = t.month := Nat.mod_eq_of_lt (by omega)
  have hd' : t.day % 100 = t.day := Nat.mod_eq_of_lt (by omega)
  have hh' : t.hour % 100 = t.hour := Nat.mod_eq_of_lt (by omega)
  have hmi' : t.minute % 100 = t.minute := Nat.mod_eq_of_lt (by omega)
  have hs' : t.second % 100 = t.second := Nat.mod_eq_of_lt (by omega)
  unfold fromisoformat DateTime.isoformat
  rw [string_data_mk]
  rw [read4_pad4, Nat.mod_eq_of_lt hy]
  dsimp only
  rw [expectChar_self]
  dsimp only
  rw [read2_pad2, hmo']
  dsimp only
  rw [expectChar_self]
  dsimp only
  rw [read2_pad2, hd']
  dsimp only
  rw [expectChar_self]
  dsimp only
  rw [read2_pad2, hh']
  dsimp only
  rw [expectChar_self]
  dsimp only
  rw [read2_pad2, hmi']
  dsimp only
  rw [expectChar_self]
  dsimp only
  rw [show (pad2 t.second : List Char) = pad2 t.second ++ []
    from (List.append_nil _).symm]
  rw [read2_pad2, hs']
  dsimp only
  rw [if_pos ⟨rfl, hmo1, hmo, hd1, hd, hh, hmi, hs⟩]
  rfl

/-- The on-disk wrapper `_append_timestamp` produces (transport.py lines
37-41): `{'last_update': <ISO text>, 'data': <payload>}`. -/
structure CatalogFile (α : Type) where
  last_update : String
  data : α
deriving DecidableEq, Repr

/-- Model of `_append_timestamp(data)` with `datetime.now()` equal to `now`. -/
def appendTimestamp {α : Type} (now : DateTime) (data : α) : CatalogFile α :=
  ⟨now.isoformat, data⟩

/-- Model of `_put_data_file(path, wrapper)` (transport.py lines 44-52) on a file
system modelled as a map from paths to wrapper documents.  `json.dump`
followed by `json.load` is the identity on the values the wrapper holds — a
guarantee of the Python standard library, not of this repository — so the
store holds the wrapper itself. -/
def putDataFile {α : Type} (fs : String → Option (CatalogFile α))
    (path : String) (w : CatalogFile α) : String → Option (CatalogFile α) :=
  fun q => if q = path then some w else fs q

/-- C6: wrapping a catalog payload with the current timestamp, persisting it,
and reading the same path back yields a record whose `data` equals the
original payload and whose `last_update` parses (ISO-8601) to the original
timestamp at second precision. -/
theorem catalog_wrapper_roundtrip {α : Type}
    (fs : String → Option (CatalogFile α)) (path : String) (payload : α)
    (now : DateTime)
    (hy : now.year < 10000) (hmo1 : 1 ≤ now.month) (hmo : now.month ≤ 12)
    (hd1 : 1 ≤ now.day) (hd : now.day ≤ 31) (hh : now.hour < 24)
    (hmi : now.minute < 60) (hs : now.second < 60) :
    ∃ w : CatalogFile α,
      putDataFile fs path (appendTimestamp now payload) path = some w ∧
      w.data = payload ∧
      fromisoformat w.last_update = some now.truncSec := by
  refine ⟨appendTimestamp now payload, ?_, rfl, ?_⟩
  · unfold putDataFile
    rw [if_pos rfl]
  · exact fromisoformat_isoformat now hy hmo1 hmo hd1 hd hh hmi hs

/-- Witness for C6 at a concrete timestamp and stop-list payload. -/
theorem catalog_wrapper_roundtrip_witness :
    ∃ w : CatalogFile (List StopData),
      putDataFile (fun _ => none) "kmb/routes/1-outbound-1.json"
          (appendTimestamp ⟨2024, 5, 17, 12, 30, 45, 123456⟩ kmbStops)
          "kmb/routes/1-outbound-1.json"
        = some w ∧
      w.data = kmbStops ∧
      fromisoformat w.last_update = some ⟨2024, 5, 17, 12, 30, 45, 0⟩ := by
  exact catalog_wrapper_roundtrip (fun _ => none) "kmb/routes/1-outbound-1.json"
    kmbStops ⟨2024, 5, 17, 12, 30, 45, 123456⟩ (by decide) (by decide) (by decide)
    (by decide) (by decide) (by decide) (by decide) (by decide)

end Hketa
